import Mathlib

/-!
# LiquidCrystalIO: the HD44780 driver of `src/LiquidCrystalIO.h`

A shallow embedding of the driver class declared in `LiquidCrystalIO.h`.

* The `LCD_*` constants and `setDelayTime`, `backlight`, `noBacklight` are
  defined in the header and are translated from it.
* The other member functions are only declared in the header; their bodies
  are modelled from the design document, and each such definition says so.
* `uint8_t` values are natural numbers below 256; a narrowing to `uint8_t`
  is written `% 256` where an `int` expression can exceed the range.
* The I/O device behind `_io_method` is embedded as the list of operations
  the driver has performed on it, oldest first.
-/

namespace LCD

/-! ## Constants of the header -/

def LCD_CLEARDISPLAY : Nat := 0x01
def LCD_RETURNHOME : Nat := 0x02
def LCD_ENTRYMODESET : Nat := 0x04
def LCD_DISPLAYCONTROL : Nat := 0x08
def LCD_CURSORSHIFT : Nat := 0x10
def LCD_FUNCTIONSET : Nat := 0x20
def LCD_SETCGRAMADDR : Nat := 0x40
def LCD_SETDDRAMADDR : Nat := 0x80

def LCD_ENTRYRIGHT : Nat := 0x00
def LCD_ENTRYLEFT : Nat := 0x02
def LCD_ENTRYSHIFTINCREMENT : Nat := 0x01
def LCD_ENTRYSHIFTDECREMENT : Nat := 0x00

def LCD_DISPLAYON : Nat := 0x04
def LCD_DISPLAYOFF : Nat := 0x00
def LCD_CURSORON : Nat := 0x02
def LCD_CURSOROFF : Nat := 0x00
def LCD_BLINKON : Nat := 0x01
def LCD_BLINKOFF : Nat := 0x00

def LCD_DISPLAYMOVE : Nat := 0x08
def LCD_CURSORMOVE : Nat := 0x00
def LCD_MOVERIGHT : Nat := 0x04
def LCD_MOVELEFT : Nat := 0x00

def LCD_8BITMODE : Nat := 0x10
def LCD_4BITMODE : Nat := 0x00
def LCD_2LINE : Nat := 0x08
def LCD_1LINE : Nat := 0x00
def LCD_5x10DOTS : Nat := 0x04
def LCD_5x8DOTS : Nat := 0x00

/-- The logic levels of the pin layer (`HIGH` of the Arduino core). -/
def HIGH : Nat := 1

/-- The logic levels of the pin layer (`LOW` of the Arduino core). -/
def LOW : Nat := 0

/-! ## Data model -/

/-- The enumeration `LiquidCrystal::BackLightPinMode`. -/
inductive BackLightPinMode where
  | BACKLIGHT_NORMAL
  | BACKLIGHT_INVERTED
  | BACKLIGHT_PWM
  deriving DecidableEq, Repr

/-- One operation performed on the pin device. -/
inductive PortEvent where
  /-- a digital pin is driven high (`true`) or low (`false`) -/
  | pinWrite (pin : Nat) (level : Bool)
  /-- a duty value is written to a pin -/
  | dutyWrite (pin : Nat) (duty : Nat)
  /-- a value is presented on `width` data lines -/
  | dataLines (width : Nat) (value : Nat)
  /-- the enable line is driven high, held, and driven low -/
  | enablePulse (pin : Nat)
  /-- the driver waits for a number of microseconds -/
  | delayMicros (us : Nat)
  deriving DecidableEq, Repr

/-- The private fields of `class LiquidCrystal`; `_io_method` is the record
of the operations performed on the device it points to. -/
structure LiquidCrystal where
  _rs_pin : Nat
  _rw_pin : Nat
  _enable_pin : Nat
  _data_pins : Fin 8 → Nat
  _displayfunction : Nat
  _displaycontrol : Nat
  _displaymode : Nat
  _delayTime : Nat
  _backlightMode : BackLightPinMode
  _backlightPin : Nat
  _numlines : Nat
  _row_offsets : Fin 4 → Nat
  _io_method : List PortEvent
  deriving DecidableEq

/-! ## Functions defined in the header -/

/-- The inline member `setDelayTime`:
`_delayTime = (settleTime > 1) ? settleTime : 1`. -/
def setDelayTime (command settleTime : Nat) (s : LiquidCrystal) : LiquidCrystal :=
  { s with _delayTime := if settleTime > 1 then settleTime else 1 }

/-! ## Bus transport (bodies not in the header)

The pin number that marks an absent pin is not given in the header or the
design document; it is the parameter `noPin` of the definitions that need it. -/

/-- Modelled from the spec: the body of `pulseEnable` is missing. Each
clock-out is followed by an enable pulse and the settle delay. -/
def pulseEnable (s : LiquidCrystal) : List PortEvent :=
  [PortEvent.enablePulse s._enable_pin, PortEvent.delayMicros s._delayTime]

/-- Modelled from the spec: the body of `write4bits` is missing. One 4-bit
clock-out: the low four bits of the value on the data lines, then the
enable pulse and settle delay. -/
def write4bits (value : Nat) (s : LiquidCrystal) : List PortEvent :=
  PortEvent.dataLines 4 (value % 16) :: pulseEnable s

/-- Modelled from the spec: the body of `write8bits` is missing. One 8-bit
parallel clock-out, then the enable pulse and settle delay. -/
def write8bits (value : Nat) (s : LiquidCrystal) : List PortEvent :=
  PortEvent.dataLines 8 (value % 256) :: pulseEnable s

/-- Modelled from the spec: the body of `send` is missing. The operations of
one transaction (section 4.1): drive register-select, drive read/write low
unless that pin is absent, then one 8-bit clock-out in 8-bit mode or two
4-bit clock-outs, high nibble first. -/
def sendEvents (noPin : Nat) (s : LiquidCrystal) (value mode : Nat) : List PortEvent :=
  [PortEvent.pinWrite s._rs_pin (decide (mode ≠ 0))]
    ++ (if s._rw_pin ≠ noPin then [PortEvent.pinWrite s._rw_pin false] else [])
    ++ (if s._displayfunction &&& LCD_8BITMODE ≠ 0 then write8bits value s
        else write4bits (value >>> 4) s ++ write4bits value s)

/-- Modelled from the spec: the body of `send` is missing. A transaction
appends its operations to the device record. -/
def send (noPin : Nat) (value mode : Nat) (s : LiquidCrystal) : LiquidCrystal :=
  { s with _io_method := s._io_method ++ sendEvents noPin s value mode }

/-- Modelled from the spec: the body of `command` is missing. A command is
a transaction with register-select low. -/
def command (noPin : Nat) (value : Nat) (s : LiquidCrystal) : LiquidCrystal :=
  send noPin value LOW s

/-- Modelled from the spec: the body of `write` is missing. A character
write is one data transaction (register-select asserted) and reports one
byte written. -/
def write (noPin : Nat) (value : Nat) (s : LiquidCrystal) : LiquidCrystal × Nat :=
  (send noPin value HIGH s, 1)

/-- Modelled from the spec: the bodies of `clear`, `home` and `begin` are
missing. A blocking wait, recorded on the device. -/
def delayMicroseconds (us : Nat) (s : LiquidCrystal) : LiquidCrystal :=
  { s with _io_method := s._io_method ++ [PortEvent.delayMicros us] }

/-! ## Command encoder (bodies not in the header) -/

/-- Modelled from the spec: the body of `clear` is missing. Opcode
`LCD_CLEARDISPLAY`, then the wait of at least 2000 microseconds that the
header documents. The class has no field for a cursor position, so no
field changes. -/
def clear (noPin : Nat) (s : LiquidCrystal) : LiquidCrystal :=
  delayMicroseconds 2000 (command noPin LCD_CLEARDISPLAY s)

/-- Modelled from the spec: the body of `home` is missing. Opcode
`LCD_RETURNHOME`, slow for the same reason as `clear`. -/
def home (noPin : Nat) (s : LiquidCrystal) : LiquidCrystal :=
  delayMicroseconds 2000 (command noPin LCD_RETURNHOME s)

/-- Modelled from the spec: the bodies of the register toggles are missing.
Each updates its register and re-issues the governing command with the full
updated register; this one re-issues `LCD_DISPLAYCONTROL`. -/
def sendDisplayControl (noPin : Nat) (reg : Nat) (s : LiquidCrystal) : LiquidCrystal :=
  command noPin (LCD_DISPLAYCONTROL ||| reg) { s with _displaycontrol := reg }

/-- Modelled from the spec: the bodies of the register toggles are missing.
Each updates its register and re-issues the governing command with the full
updated register; this one re-issues `LCD_ENTRYMODESET`. -/
def sendEntryMode (noPin : Nat) (reg : Nat) (s : LiquidCrystal) : LiquidCrystal :=
  command noPin (LCD_ENTRYMODESET ||| reg) { s with _displaymode := reg }

/-- Modelled from the spec: the body of `noDisplay` is missing. -/
def noDisplay (noPin : Nat) (s : LiquidCrystal) : LiquidCrystal :=
  sendDisplayControl noPin (s._displaycontrol &&& (0xFF ^^^ LCD_DISPLAYON)) s

/-- Modelled from the spec: the body of `display` is missing. -/
def display (noPin : Nat) (s : LiquidCrystal) : LiquidCrystal :=
  sendDisplayControl noPin (s._displaycontrol ||| LCD_DISPLAYON) s

/-- Modelled from the spec: the body of `noCursor` is missing. -/
def noCursor (noPin : Nat) (s : LiquidCrystal) : LiquidCrystal :=
  sendDisplayControl noPin (s._displaycontrol &&& (0xFF ^^^ LCD_CURSORON)) s

/-- Modelled from the spec: the body of `cursor` is missing. -/
def cursor (noPin : Nat) (s : LiquidCrystal) : LiquidCrystal :=
  sendDisplayControl noPin (s._displaycontrol ||| LCD_CURSORON) s

/-- Modelled from the spec: the body of `noBlink` is missing. -/
def noBlink (noPin : Nat) (s : LiquidCrystal) : LiquidCrystal :=
  sendDisplayControl noPin (s._displaycontrol &&& (0xFF ^^^ LCD_BLINKON)) s

/-- Modelled from the spec: the body of `blink` is missing. -/
def blink (noPin : Nat) (s : LiquidCrystal) : LiquidCrystal :=
  sendDisplayControl noPin (s._displaycontrol ||| LCD_BLINKON) s

/-- Modelled from the spec: the body of `leftToRight` is missing. -/
def leftToRight (noPin : Nat) (s : LiquidCrystal) : LiquidCrystal :=
  sendEntryMode noPin (s._displaymode ||| LCD_ENTRYLEFT) s

/-- Modelled from the spec: the body of `rightToLeft` is missing. -/
def rightToLeft (noPin : Nat) (s : LiquidCrystal) : LiquidCrystal :=
  sendEntryMode noPin (s._displaymode &&& (0xFF ^^^ LCD_ENTRYLEFT)) s

/-- Modelled from the spec: the body of `autoscroll` is missing. -/
def autoscroll (noPin : Nat) (s : LiquidCrystal) : LiquidCrystal :=
  sendEntryMode noPin (s._displaymode ||| LCD_ENTRYSHIFTINCREMENT) s

/-- Modelled from the spec: the body of `noAutoscroll` is missing. -/
def noAutoscroll (noPin : Nat) (s : LiquidCrystal) : LiquidCrystal :=
  sendEntryMode noPin (s._displaymode &&& (0xFF ^^^ LCD_ENTRYSHIFTINCREMENT)) s

/-- Modelled from the spec: the body of `createChar` is missing. The index
is masked to three bits, `LCD_SETCGRAMADDR` is written for index times 8,
and the eight pattern bytes follow as data transactions. -/
def createChar (noPin : Nat) (location : Nat) (charmap : Fin 8 → Nat)
    (s : LiquidCrystal) : LiquidCrystal :=
  let location := location &&& 0x7
  (List.ofFn charmap).foldl (fun acc b => (write noPin b acc).1)
    (command noPin (LCD_SETCGRAMADDR ||| (location * 8)) s)

/-! ## Backlight -/

/-- Modelled from the spec: the body of `configureBacklightPin` is missing.
It stores pin and mode. -/
def configureBacklightPin (backlightPin : Nat) (mode : BackLightPinMode)
    (s : LiquidCrystal) : LiquidCrystal :=
  { s with _backlightPin := backlightPin, _backlightMode := mode }

/-- Modelled from the spec: the body of `setBacklight` is missing. Nothing
happens when the pin is absent; in normal mode the pin is driven high for
a nonzero level and low otherwise, in inverted mode the polarity is
flipped, and in PWM mode the level is written as a duty value. -/
def setBacklight (noPin : Nat) (state : Nat) (s : LiquidCrystal) : LiquidCrystal :=
  if s._backlightPin = noPin then s
  else
    match s._backlightMode with
    | BackLightPinMode.BACKLIGHT_NORMAL =>
      { s with _io_method :=
          s._io_method ++ [PortEvent.pinWrite s._backlightPin (decide (state ≠ 0))] }
    | BackLightPinMode.BACKLIGHT_INVERTED =>
      { s with _io_method :=
          s._io_method ++ [PortEvent.pinWrite s._backlightPin (decide (state = 0))] }
    | BackLightPinMode.BACKLIGHT_PWM =>
      { s with _io_method := s._io_method ++ [PortEvent.dutyWrite s._backlightPin state] }

/-- The inline member `backlight` of the header: `setBacklight(HIGH)`. -/
def backlight (noPin : Nat) (s : LiquidCrystal) : LiquidCrystal :=
  setBacklight noPin HIGH s

/-- The inline member `noBacklight` of the header: `setBacklight(LOW)`. -/
def noBacklight (noPin : Nat) (s : LiquidCrystal) : LiquidCrystal :=
  setBacklight noPin LOW s

/-! ## Initialization -/

/-- Modelled from the spec: the body of `begin` is missing. The function
register is set from the bus width fixed at construction, the line count
(two lines when `rows > 1`) and the font (5x10 only for a one-line request,
5x8 otherwise); then the steps of section 4.2 follow. Steps 1 and 2, the
waits and the recovery handshake, are given only in outline there, without
nibble values or delays, so their operations are the parameter `handshake`.
Steps 3 to 6 are the function-set command, display-control with display on,
cursor off and blink off, `clear`, and entry-mode with left-to-right and no
autoscroll. The listed steps make no use of `cols` and leave the row-offset
table as it is. -/
def begin (noPin : Nat) (handshake : List PortEvent) (cols rows charsize : Nat)
    (s : LiquidCrystal) : LiquidCrystal :=
  let width := s._displayfunction &&& LCD_8BITMODE
  let lines := if rows > 1 then LCD_2LINE else LCD_1LINE
  let font := if charsize ≠ LCD_5x8DOTS ∧ rows = 1 then LCD_5x10DOTS else LCD_5x8DOTS
  let s1 := { s with _displayfunction := width ||| lines ||| font,
                     _numlines := rows,
                     _io_method := s._io_method ++ handshake }
  let s2 := command noPin (LCD_FUNCTIONSET ||| s1._displayfunction) s1
  let s3 := sendDisplayControl noPin (LCD_DISPLAYON ||| LCD_CURSOROFF ||| LCD_BLINKOFF) s2
  let s4 := clear noPin s3
  sendEntryMode noPin (LCD_ENTRYLEFT ||| LCD_ENTRYSHIFTDECREMENT) s4

/-! ## Register toggles as a sequence -/

/-- The ten register toggles of the public interface. -/
inductive Toggle where
  | display | noDisplay | cursor | noCursor | blink | noBlink
  | leftToRight | rightToLeft | autoscroll | noAutoscroll
  deriving DecidableEq, Repr

/-- The driver function a toggle names. -/
def Toggle.run (noPin : Nat) : Toggle → LiquidCrystal → LiquidCrystal
  | Toggle.display => LCD.display noPin
  | Toggle.noDisplay => LCD.noDisplay noPin
  | Toggle.cursor => LCD.cursor noPin
  | Toggle.noCursor => LCD.noCursor noPin
  | Toggle.blink => LCD.blink noPin
  | Toggle.noBlink => LCD.noBlink noPin
  | Toggle.leftToRight => LCD.leftToRight noPin
  | Toggle.rightToLeft => LCD.rightToLeft noPin
  | Toggle.autoscroll => LCD.autoscroll noPin
  | Toggle.noAutoscroll => LCD.noAutoscroll noPin

/-- Whether a toggle belongs to the display-control register (otherwise it
belongs to the entry-mode register). -/
def Toggle.isDisplayControl : Toggle → Bool
  | Toggle.display | Toggle.noDisplay | Toggle.cursor
  | Toggle.noCursor | Toggle.blink | Toggle.noBlink => true
  | _ => false

/-- The flags of the two registers as the design document names them: which
of them are currently true. -/
structure Flags where
  displayOn : Bool
  cursorOn : Bool
  blinkOn : Bool
  entryLeft : Bool
  shiftIncrement : Bool
  deriving DecidableEq, Repr

/-- The flags `begin` leaves: display on, cursor off, blink off,
left-to-right, no autoscroll. -/
def Flags.afterBegin : Flags :=
  { displayOn := true, cursorOn := false, blinkOn := false,
    entryLeft := true, shiftIncrement := false }

/-- What a toggle says about the flags: it makes one flag true or false. -/
def Flags.apply (f : Flags) : Toggle → Flags
  | Toggle.display => { f with displayOn := true }
  | Toggle.noDisplay => { f with displayOn := false }
  | Toggle.cursor => { f with cursorOn := true }
  | Toggle.noCursor => { f with cursorOn := false }
  | Toggle.blink => { f with blinkOn := true }
  | Toggle.noBlink => { f with blinkOn := false }
  | Toggle.leftToRight => { f with entryLeft := true }
  | Toggle.rightToLeft => { f with entryLeft := false }
  | Toggle.autoscroll => { f with shiftIncrement := true }
  | Toggle.noAutoscroll => { f with shiftIncrement := false }

/-- The display-control flags that are true, ORed together. -/
def Flags.displayControlBits (f : Flags) : Nat :=
  (if f.displayOn then LCD_DISPLAYON else 0)
    ||| (if f.cursorOn then LCD_CURSORON else 0)
    ||| (if f.blinkOn then LCD_BLINKON else 0)

/-- The entry-mode flags that are true, ORed together. -/
def Flags.entryModeBits (f : Flags) : Nat :=
  (if f.entryLeft then LCD_ENTRYLEFT else 0)
    ||| (if f.shiftIncrement then LCD_ENTRYSHIFTINCREMENT else 0)

/-- The command byte a toggle is expected to transmit: the base opcode of
its register ORed with the flags of that register that are true. -/
def Flags.commandByte (f : Flags) (t : Toggle) : Nat :=
  if t.isDisplayControl then LCD_DISPLAYCONTROL ||| f.displayControlBits
  else LCD_ENTRYMODESET ||| f.entryModeBits

/-! ## The command encoding of the header -/

/-- The eight commands of the header. -/
inductive Cmd where
  | CLEARDISPLAY | RETURNHOME | ENTRYMODESET | DISPLAYCONTROL
  | CURSORSHIFT | FUNCTIONSET | SETCGRAMADDR | SETDDRAMADDR
  deriving DecidableEq, Repr

/-- The base opcode of a command (`LCD_*` under `// commands`). -/
def Cmd.opcode : Cmd → Nat
  | Cmd.CLEARDISPLAY => LCD_CLEARDISPLAY
  | Cmd.RETURNHOME => LCD_RETURNHOME
  | Cmd.ENTRYMODESET => LCD_ENTRYMODESET
  | Cmd.DISPLAYCONTROL => LCD_DISPLAYCONTROL
  | Cmd.CURSORSHIFT => LCD_CURSORSHIFT
  | Cmd.FUNCTIONSET => LCD_FUNCTIONSET
  | Cmd.SETCGRAMADDR => LCD_SETCGRAMADDR
  | Cmd.SETDDRAMADDR => LCD_SETDDRAMADDR

/-- The flag constants the header lists for a command (`// flags for ...`);
the commands without flags have none. -/
def Cmd.flags : Cmd → List Nat
  | Cmd.ENTRYMODESET =>
    [LCD_ENTRYRIGHT, LCD_ENTRYLEFT, LCD_ENTRYSHIFTINCREMENT, LCD_ENTRYSHIFTDECREMENT]
  | Cmd.DISPLAYCONTROL =>
    [LCD_DISPLAYON, LCD_DISPLAYOFF, LCD_CURSORON, LCD_CURSOROFF, LCD_BLINKON, LCD_BLINKOFF]
  | Cmd.CURSORSHIFT => [LCD_DISPLAYMOVE, LCD_CURSORMOVE, LCD_MOVERIGHT, LCD_MOVELEFT]
  | Cmd.FUNCTIONSET =>
    [LCD_8BITMODE, LCD_4BITMODE, LCD_2LINE, LCD_1LINE, LCD_5x10DOTS, LCD_5x8DOTS]
  | _ => []

/-- Every value obtained by ORing together some of the given flags. -/
def flagCombinations (flags : List Nat) : List Nat :=
  flags.sublists.map (fun chosen => chosen.foldl (fun acc f => acc ||| f) 0)

/-- The values a command carries: a flag combination for the flag-carrying
commands, an address below `0x40` resp. `0x80` for the two address
commands, nothing (0) for `CLEARDISPLAY` and `RETURNHOME`. -/
def Cmd.payloads : Cmd → List Nat
  | Cmd.SETCGRAMADDR => List.range 0x40
  | Cmd.SETDDRAMADDR => List.range 0x80
  | c => flagCombinations c.flags

/-- The byte of a command with a payload: the opcode ORed with it. -/
def Cmd.encode (c : Cmd) (payload : Nat) : Nat :=
  c.opcode ||| payload

/-- The highest set bit of a byte, as a power of two; 0 for the byte 0. -/
def highestSetBit (b : Nat) : Nat :=
  ([0x80, 0x40, 0x20, 0x10, 0x08, 0x04, 0x02, 0x01].find? (fun m => b &&& m ≠ 0)).getD 0

/-- The in-memory registers hold exactly the flags that are true. -/
def Agrees (s : LiquidCrystal) (f : Flags) : Prop :=
  s._displaycontrol = f.displayControlBits ∧ s._displaymode = f.entryModeBits

/-- The state after a list of toggles, applied in order. -/
def runToggles (noPin : Nat) (ts : List Toggle) (s : LiquidCrystal) : LiquidCrystal :=
  ts.foldl (fun acc t => t.run noPin acc) s

/-- The flags after a list of toggles, applied in order. -/
def Flags.applyAll (f : Flags) (ts : List Toggle) : Flags :=
  ts.foldl Flags.apply f

/-- A driver state used for concrete evaluations: four-bit wiring on pins
12, 11 and 5..2 with no read/write line, 16x2 geometry. -/
def sampleLcd : LiquidCrystal :=
  { _rs_pin := 12, _rw_pin := 255, _enable_pin := 11,
    _data_pins := ![5, 4, 3, 2, 0, 0, 0, 0],
    _displayfunction := 0x08, _displaycontrol := 0x04, _displaymode := 0x02,
    _delayTime := 20, _backlightMode := BackLightPinMode.BACKLIGHT_NORMAL,
    _backlightPin := 255, _numlines := 2, _row_offsets := ![0x00, 0x40, 0x10, 0x50],
    _io_method := [] }

/-! ## Settle time -/

/-- C4: after `setDelayTime(command, settleTime)` the stored settle delay is
`max settleTime 1`: it is `settleTime` when that exceeds 1 and 1 otherwise,
and so it is never 0. -/
theorem setDelayTime_stores_max (s : LiquidCrystal) (command settleTime : Nat) :
    (setDelayTime command settleTime s)._delayTime = max settleTime 1 ∧
    (1 < settleTime → (setDelayTime command settleTime s)._delayTime = settleTime) ∧
    (settleTime ≤ 1 → (setDelayTime command settleTime s)._delayTime = 1) ∧
    (setDelayTime command settleTime s)._delayTime ≠ 0 := by
  simp only [setDelayTime]
  refine ⟨?_, ?_, ?_, ?_⟩
  · split <;> omega
  · intro h; simp [h]
  · intro h; have : ¬ settleTime > 1 := by omega
    simp [this]
  · split <;> omega

/-- C4, at a concrete input: `setDelayTime(0, 5)` stores 5. -/
theorem setDelayTime_stores_max_witness :
    1 < 5 ∧ (setDelayTime 0 5 sampleLcd)._delayTime = 5 :=
  ⟨by decide, (setDelayTime_stores_max sampleLcd 0 5).2.1 (by decide)⟩

/-- C8 (as stated, refuted): a call with a smaller `settleTime` shortens the
stored settle delay; after `setDelayTime(0, 50)` the delay is 50, and a
following `setDelayTime(0, 5)` stores 5. -/
theorem setDelayTime_shortens_50_to_5 :
    (setDelayTime 0 50 sampleLcd)._delayTime = 50 ∧
    (setDelayTime 0 5 (setDelayTime 0 50 sampleLcd))._delayTime = 5 ∧
    ¬ ((setDelayTime 0 50 sampleLcd)._delayTime
        ≤ (setDelayTime 0 5 (setDelayTime 0 50 sampleLcd))._delayTime) := by
  decide

/-- C8 (amended): the settle delay stored by `setDelayTime` is `max
settleTime 1`, so it is never below the fixed minimum 1 and never below
`settleTime`; it is at least the delay stored before the call exactly when
`max settleTime 1` is. -/
theorem setDelayTime_floor (s : LiquidCrystal) (command settleTime : Nat) :
    (setDelayTime command settleTime s)._delayTime = max settleTime 1 ∧
    1 ≤ (setDelayTime command settleTime s)._delayTime ∧
    settleTime ≤ (setDelayTime command settleTime s)._delayTime ∧
    (s._delayTime ≤ (setDelayTime command settleTime s)._delayTime
      ↔ s._delayTime ≤ max settleTime 1) := by
  simp only [setDelayTime]
  refine ⟨?_, ?_, ?_, ?_⟩
  · split <;> omega
  · split <;> omega
  · split <;> omega
  · split <;> omega

/-- C10: `setDelayTime` ignores its command argument, leaves every field
other than `_delayTime` unchanged, and a second call with the same
`settleTime` changes nothing more. -/
theorem setDelayTime_frame (s : LiquidCrystal) (c1 c2 settleTime : Nat) :
    setDelayTime c1 settleTime s = setDelayTime c2 settleTime s ∧
    ((setDelayTime c1 settleTime s)._rs_pin = s._rs_pin ∧
     (setDelayTime c1 settleTime s)._rw_pin = s._rw_pin ∧
     (setDelayTime c1 settleTime s)._enable_pin = s._enable_pin ∧
     (setDelayTime c1 settleTime s)._data_pins = s._data_pins ∧
     (setDelayTime c1 settleTime s)._displayfunction = s._displayfunction ∧
     (setDelayTime c1 settleTime s)._displaycontrol = s._displaycontrol ∧
     (setDelayTime c1 settleTime s)._displaymode = s._displaymode ∧
     (setDelayTime c1 settleTime s)._backlightMode = s._backlightMode ∧
     (setDelayTime c1 settleTime s)._backlightPin = s._backlightPin ∧
     (setDelayTime c1 settleTime s)._numlines = s._numlines ∧
     (setDelayTime c1 settleTime s)._row_offsets = s._row_offsets ∧
     (setDelayTime c1 settleTime s)._io_method = s._io_method) ∧
    setDelayTime c2 settleTime (setDelayTime c1 settleTime s)
      = setDelayTime c1 settleTime s := by
  refine ⟨rfl, ⟨rfl, rfl, rfl, rfl, rfl, rfl, rfl, rfl, rfl, rfl, rfl, rfl⟩, rfl⟩

/-! ## Command encoding -/

set_option maxRecDepth 100000

/-- The highest set bit of a command byte is the base opcode of its command. -/
theorem encode_highestSetBit (c : Cmd) (p : Nat) (hp : p ∈ c.payloads) :
    highestSetBit (c.encode p) = c.opcode := by
  revert p
  cases c <;> decide

/-- Different commands have different base opcodes. -/
theorem opcode_injective (c1 c2 : Cmd) (h : c1.opcode = c2.opcode) : c1 = c2 := by
  revert h
  cases c1 <;> cases c2 <;> decide

/-- C9: the command encoding of the header is unambiguous. For each
flag-carrying command every flag combination is strictly below the base
opcode, so ORing is adding and masking with the base minus one recovers the
flags; the highest set bit of a command byte is the base opcode of its
command, and the bytes of two different commands are never equal. -/
theorem command_encoding_unambiguous :
    (∀ c ∈ [Cmd.ENTRYMODESET, Cmd.DISPLAYCONTROL, Cmd.CURSORSHIFT, Cmd.FUNCTIONSET],
      ∀ f ∈ flagCombinations c.flags,
        f < c.opcode ∧ c.opcode ||| f = c.opcode + f ∧
        (c.opcode ||| f) &&& (c.opcode - 1) = f) ∧
    (∀ (c : Cmd) (p : Nat), p ∈ c.payloads → highestSetBit (c.encode p) = c.opcode) ∧
    (∀ (c1 c2 : Cmd) (p1 p2 : Nat), p1 ∈ c1.payloads → p2 ∈ c2.payloads →
      c1 ≠ c2 → c1.encode p1 ≠ c2.encode p2) := by
  refine ⟨by decide, encode_highestSetBit, ?_⟩
  intro c1 c2 p1 p2 h1 h2 hne heq
  apply hne
  apply opcode_injective
  rw [← encode_highestSetBit c1 p1 h1, ← encode_highestSetBit c2 p2 h2, heq]

/-- C9, at concrete bytes: display-control with display and blink on
(`0x0D`) differs from entry-mode with autoscroll (`0x05`). -/
theorem command_encoding_unambiguous_witness :
    Cmd.encode Cmd.DISPLAYCONTROL 5 ≠ Cmd.encode Cmd.ENTRYMODESET 1 :=
  command_encoding_unambiguous.2.2 Cmd.DISPLAYCONTROL Cmd.ENTRYMODESET 5 1
    (by decide) (by decide) (by decide)

/-! ## Register toggles -/

/-- After `begin` the registers hold display on and left-to-right only. -/
theorem begin_agrees (noPin : Nat) (handshake : List PortEvent) (cols rows charsize : Nat)
    (s : LiquidCrystal) :
    Agrees (begin noPin handshake cols rows charsize s) Flags.afterBegin := by
  constructor <;> rfl

/-- A toggle keeps the registers equal to the flags that are true. -/
theorem run_agrees (noPin : Nat) (t : Toggle) (s : LiquidCrystal) (f : Flags)
    (h : Agrees s f) : Agrees (t.run noPin s) (f.apply t) := by
  obtain ⟨h1, h2⟩ := h
  obtain ⟨a, b, c, d, e⟩ := f
  cases t <;>
    simp only [Agrees, Toggle.run, Flags.apply, display, noDisplay, cursor, noCursor,
      blink, noBlink, leftToRight, rightToLeft, autoscroll, noAutoscroll,
      sendDisplayControl, sendEntryMode, command, send, h1, h2] <;>
    cases a <;> cases b <;> cases c <;> cases d <;> cases e <;> decide

/-- A list of toggles keeps the registers equal to the flags that are true. -/
theorem runToggles_agrees (noPin : Nat) (ts : List Toggle) (s : LiquidCrystal) (f : Flags)
    (h : Agrees s f) : Agrees (runToggles noPin ts s) (f.applyAll ts) := by
  induction ts generalizing s f with
  | nil => exact h
  | cons t ts ih => exact ih _ _ (run_agrees noPin t s f h)

/-- A toggle appends one command transaction carrying the base opcode ORed
with the flags of its register that are true after it. -/
theorem run_transmits (noPin : Nat) (t : Toggle) (s : LiquidCrystal) (f : Flags)
    (h : Agrees s f) :
    (t.run noPin s)._io_method
      = s._io_method ++ sendEvents noPin s ((f.apply t).commandByte t) LOW := by
  have h' := run_agrees noPin t s f h
  obtain ⟨h1, h2⟩ := h'
  cases t <;>
    simp only [Toggle.run, display, noDisplay, cursor, noCursor,
      blink, noBlink, leftToRight, rightToLeft, autoscroll, noAutoscroll,
      sendDisplayControl, sendEntryMode, command, send] at h1 h2 ⊢ <;>
    simp only [Flags.commandByte, Toggle.isDisplayControl, ← h1, ← h2] <;> rfl

/-- C1: after `begin`, for every sequence of register toggles, the last
toggle transmits one command transaction whose byte is the base opcode of
its register (`LCD_DISPLAYCONTROL` or `LCD_ENTRYMODESET`) ORed with exactly
the flags of that register that are then true, and both in-memory registers
hold exactly the flags that are true. -/
theorem toggles_transmit_current_flags (noPin : Nat) (handshake : List PortEvent)
    (cols rows charsize : Nat) (s0 : LiquidCrystal) (ts : List Toggle) (t : Toggle) :
    (t.run noPin (runToggles noPin ts (begin noPin handshake cols rows charsize s0)))._io_method
      = (runToggles noPin ts (begin noPin handshake cols rows charsize s0))._io_method
        ++ sendEvents noPin (runToggles noPin ts (begin noPin handshake cols rows charsize s0))
            ((Flags.afterBegin.applyAll (ts ++ [t])).commandByte t) LOW ∧
    (t.run noPin (runToggles noPin ts (begin noPin handshake cols rows charsize s0)))._displaycontrol
      = (Flags.afterBegin.applyAll (ts ++ [t])).displayControlBits ∧
    (t.run noPin (runToggles noPin ts (begin noPin handshake cols rows charsize s0)))._displaymode
      = (Flags.afterBegin.applyAll (ts ++ [t])).entryModeBits := by
  have hs := runToggles_agrees noPin ts _ _
    (begin_agrees noPin handshake cols rows charsize s0)
  have hf : Flags.afterBegin.applyAll (ts ++ [t]) = (Flags.afterBegin.applyAll ts).apply t := by
    simp [Flags.applyAll, List.foldl_append]
  rw [hf]
  exact ⟨run_transmits noPin t _ _ hs, run_agrees noPin t _ _ hs⟩

/-! ## Cursor placement and custom glyphs -/

/-- A transaction does not change what later transactions put on the bus. -/
theorem sendEvents_send (noPin value mode v m : Nat) (s : LiquidCrystal) :
    sendEvents noPin (send noPin v m s) value mode = sendEvents noPin s value mode := rfl

/-- A transaction appends its operations to the device record. -/
theorem send_io_method (noPin v m : Nat) (s : LiquidCrystal) :
    (send noPin v m s)._io_method = s._io_method ++ sendEvents noPin s v m := rfl

/-- Masking the glyph index beforehand changes nothing. -/
theorem createChar_mask (noPin : Nat) (location : Nat) (charmap : Fin 8 → Nat)
    (s : LiquidCrystal) :
    createChar noPin location charmap s = createChar noPin (location &&& 0x7) charmap s := by
  simp only [createChar, Nat.and_assoc, Nat.and_self]

/-- C3: `createChar(index, pattern)` does what `createChar(index & 0x7,
pattern)` does: one command transaction with `LCD_SETCGRAMADDR` ORed with
`(index & 0x7) * 8`, then the eight pattern bytes as data transactions in
order; index 9 gives the same as index 1. -/
theorem createChar_masks_index (noPin : Nat) (location : Nat) (charmap : Fin 8 → Nat)
    (s : LiquidCrystal) :
    createChar noPin location charmap s = createChar noPin (location &&& 0x7) charmap s ∧
    (createChar noPin location charmap s)._io_method
      = s._io_method
        ++ sendEvents noPin s (LCD_SETCGRAMADDR ||| ((location &&& 0x7) * 8)) LOW
        ++ sendEvents noPin s (charmap 0) HIGH ++ sendEvents noPin s (charmap 1) HIGH
        ++ sendEvents noPin s (charmap 2) HIGH ++ sendEvents noPin s (charmap 3) HIGH
        ++ sendEvents noPin s (charmap 4) HIGH ++ sendEvents noPin s (charmap 5) HIGH
        ++ sendEvents noPin s (charmap 6) HIGH ++ sendEvents noPin s (charmap 7) HIGH ∧
    createChar noPin 9 charmap s = createChar noPin 1 charmap s := by
  refine ⟨createChar_mask noPin location charmap s, ?_, ?_⟩
  · simp only [createChar, List.ofFn_succ, List.ofFn_zero, List.foldl_cons, List.foldl_nil,
      write, command, send_io_method, sendEvents_send]
    rfl
  · have h : (9 : Nat) &&& 0x7 = 1 &&& 0x7 := by decide
    rw [createChar_mask noPin 9, createChar_mask noPin 1, h]

/-! ## Function register -/

/-- Masking with `LCD_8BITMODE` leaves that bit or nothing. -/
theorem and_8BITMODE_cases (x : Nat) :
    x &&& LCD_8BITMODE = 0 ∨ x &&& LCD_8BITMODE = LCD_8BITMODE := by
  have h1 : x &&& LCD_8BITMODE ≤ 16 := Nat.and_le_right
  have h2 : (x &&& LCD_8BITMODE) &&& 15 = 0 := by
    rw [Nat.and_assoc]
    have : LCD_8BITMODE &&& 15 = 0 := by decide
    rw [this, Nat.and_zero]
  generalize x &&& LCD_8BITMODE = y at h1 h2
  interval_cases y <;> first | (left; rfl) | (right; rfl) | (exfalso; revert h2; decide)

/-- The function register that `begin` stores. -/
theorem begin_displayfunction (noPin : Nat) (handshake : List PortEvent)
    (cols rows charsize : Nat) (s : LiquidCrystal) :
    (begin noPin handshake cols rows charsize s)._displayfunction
      = (s._displayfunction &&& LCD_8BITMODE)
        ||| (if rows > 1 then LCD_2LINE else LCD_1LINE)
        ||| (if charsize ≠ LCD_5x8DOTS ∧ rows = 1 then LCD_5x10DOTS else LCD_5x8DOTS) := rfl

/-- C6: for every `cols`, every `rows > 1` and every `charsize`, the
function register after `begin(cols, rows, charsize)` has the `LCD_2LINE`
bit set and the `LCD_5x10DOTS` bit clear; the `LCD_5x10DOTS` bit is set
exactly when `rows == 1` and `charsize` is not `LCD_5x8DOTS`. -/
theorem begin_forces_5x8_on_two_lines (noPin : Nat) (handshake : List PortEvent)
    (cols rows charsize : Nat) (s : LiquidCrystal) :
    (1 < rows →
      (begin noPin handshake cols rows charsize s)._displayfunction &&& LCD_2LINE = LCD_2LINE ∧
      (begin noPin handshake cols rows charsize s)._displayfunction &&& LCD_5x10DOTS = 0) ∧
    ((begin noPin handshake cols rows charsize s)._displayfunction &&& LCD_5x10DOTS ≠ 0
      ↔ rows = 1 ∧ charsize ≠ LCD_5x8DOTS) := by
  rw [begin_displayfunction]
  by_cases hr : rows > 1
  · have hr1 : ¬ rows = 1 := by omega
    have hc : ¬ (charsize ≠ LCD_5x8DOTS ∧ rows = 1) := fun h => hr1 h.2
    simp only [hr, hc, if_true, if_false]
    rcases and_8BITMODE_cases s._displayfunction with h | h <;> rw [h] <;>
      simp only [hr1, false_and, iff_false] <;> decide
  · have hr2 : ¬ 1 < rows := hr
    simp only [hr, if_false]
    by_cases hc : charsize ≠ LCD_5x8DOTS ∧ rows = 1
    · simp only [hc, if_true]
      rcases and_8BITMODE_cases s._displayfunction with h | h <;> rw [h] <;>
        simp only [hr2, false_imp_iff, true_and, hc.1, hc.2, ne_eq, not_false_eq_true,
          and_self, iff_true] <;> decide
    · have hc2 : ¬ (rows = 1 ∧ charsize ≠ LCD_5x8DOTS) := fun h => hc ⟨h.2, h.1⟩
      simp only [hc, if_false]
      rcases and_8BITMODE_cases s._displayfunction with h | h <;> rw [h] <;>
        simp only [hr2, false_imp_iff, true_and, hc2, iff_false] <;> decide

/-- C6, at a concrete input: `begin(16, 2, LCD_5x10DOTS)` on a four-bit
driver gives the function register `LCD_2LINE`, with the font bit clear. -/
theorem begin_forces_5x8_on_two_lines_witness :
    (begin 255 [] 16 2 LCD_5x10DOTS sampleLcd)._displayfunction &&& LCD_2LINE = LCD_2LINE ∧
    (begin 255 [] 16 2 LCD_5x10DOTS sampleLcd)._displayfunction &&& LCD_5x10DOTS = 0 :=
  (begin_forces_5x8_on_two_lines 255 [] 16 2 LCD_5x10DOTS sampleLcd).1 (by decide)

/-! ## Backlight -/

/-- C7: with a backlight pin configured (a pin other than the absent-pin
marker), in inverted mode `setBacklight(HIGH)` and `backlight()` drive the
pin low and `setBacklight(LOW)` drives it high; in normal mode
`setBacklight(level)` drives it high for every nonzero level and low for
level 0. The only effect is that one pin write: no command or data
transaction is issued and no other field changes. -/
theorem setBacklight_drives_pin (noPin pin level : Nat) (s : LiquidCrystal)
    (hpin : pin ≠ noPin) :
    setBacklight noPin HIGH (configureBacklightPin pin BackLightPinMode.BACKLIGHT_INVERTED s)
      = { configureBacklightPin pin BackLightPinMode.BACKLIGHT_INVERTED s with
          _io_method := s._io_method ++ [PortEvent.pinWrite pin false] } ∧
    backlight noPin (configureBacklightPin pin BackLightPinMode.BACKLIGHT_INVERTED s)
      = { configureBacklightPin pin BackLightPinMode.BACKLIGHT_INVERTED s with
          _io_method := s._io_method ++ [PortEvent.pinWrite pin false] } ∧
    setBacklight noPin LOW (configureBacklightPin pin BackLightPinMode.BACKLIGHT_INVERTED s)
      = { configureBacklightPin pin BackLightPinMode.BACKLIGHT_INVERTED s with
          _io_method := s._io_method ++ [PortEvent.pinWrite pin true] } ∧
    setBacklight noPin level (configureBacklightPin pin BackLightPinMode.BACKLIGHT_NORMAL s)
      = { configureBacklightPin pin BackLightPinMode.BACKLIGHT_NORMAL s with
          _io_method := s._io_method ++ [PortEvent.pinWrite pin (decide (level ≠ 0))] } := by
  refine ⟨?_, ?_, ?_, ?_⟩ <;>
    simp [backlight, setBacklight, configureBacklightPin, hpin, HIGH, LOW]

/-- C7, at a concrete input: pin 10 in inverted mode, backlight switched
on, drives pin 10 low. -/
theorem setBacklight_drives_pin_witness :
    (10 : Nat) ≠ 255 ∧
    backlight 255 (configureBacklightPin 10 BackLightPinMode.BACKLIGHT_INVERTED sampleLcd)
      = { configureBacklightPin 10 BackLightPinMode.BACKLIGHT_INVERTED sampleLcd with
          _io_method := sampleLcd._io_method ++ [PortEvent.pinWrite 10 false] } :=
  ⟨by decide, (setBacklight_drives_pin 255 10 1 sampleLcd (by decide)).2.1⟩

/-! ## Initialization sequence -/

/-- In four-bit mode without a read/write pin, `begin(16, 2)` performs the
handshake and then the four commands function-set `0x28`, display-control
`0x0C`, clear `0x01` (with its wait) and entry-mode `0x06`, each as two
nibbles, high nibble first. -/
theorem begin_16_2_four_bit_commands (noPin : Nat) (handshake : List PortEvent)
    (s : LiquidCrystal) (h4 : s._displayfunction &&& LCD_8BITMODE = 0)
    (hrw : s._rw_pin = noPin) :
    (begin noPin handshake 16 2 LCD_5x8DOTS s)._io_method
      = s._io_method ++ handshake
        ++ [PortEvent.pinWrite s._rs_pin false,
            PortEvent.dataLines 4 0x2,
            PortEvent.enablePulse s._enable_pin, PortEvent.delayMicros s._delayTime,
            PortEvent.dataLines 4 0x8,
            PortEvent.enablePulse s._enable_pin, PortEvent.delayMicros s._delayTime]
        ++ [PortEvent.pinWrite s._rs_pin false,
            PortEvent.dataLines 4 0x0,
            PortEvent.enablePulse s._enable_pin, PortEvent.delayMicros s._delayTime,
            PortEvent.dataLines 4 0xC,
            PortEvent.enablePulse s._enable_pin, PortEvent.delayMicros s._delayTime]
        ++ [PortEvent.pinWrite s._rs_pin false,
            PortEvent.dataLines 4 0x0,
            PortEvent.enablePulse s._enable_pin, PortEvent.delayMicros s._delayTime,
            PortEvent.dataLines 4 0x1,
            PortEvent.enablePulse s._enable_pin, PortEvent.delayMicros s._delayTime,
            PortEvent.delayMicros 2000]
        ++ [PortEvent.pinWrite s._rs_pin false,
            PortEvent.dataLines 4 0x0,
            PortEvent.enablePulse s._enable_pin, PortEvent.delayMicros s._delayTime,
            PortEvent.dataLines 4 0x6,
            PortEvent.enablePulse s._enable_pin, PortEvent.delayMicros s._delayTime] := by
  have hf : (s._displayfunction &&& LCD_8BITMODE ||| LCD_2LINE ||| LCD_5x8DOTS) = 8 := by
    rw [h4]; decide
  have h8 : ¬ ((8 : Nat) &&& LCD_8BITMODE ≠ 0) := by decide
  simp only [begin, sendDisplayControl, sendEntryMode, clear, delayMicroseconds, command, send,
    sendEvents, write4bits, pulseEnable, hrw, hf, h8, ne_eq, not_true_eq_false, if_true,
    if_false, LOW, gt_iff_lt, Nat.one_lt_ofNat, OfNat.ofNat_ne_one, and_false,
    List.append_assoc, List.cons_append, List.nil_append, List.append_nil]
  rfl

end LCD
